import Mathlib

/-!
Shallow embedding of the foxtrot_workspace gameplay code.

Sources embedded here:
- src/src/player.rs : Timer, Grounded, Jump, and the locomotion systems
  update_grounded, apply_gravity, handle_jump, handle_horizontal_movement,
  apply_velocity.
- src/src/scene_editor.rs : the Set-parent region of show_editor.
- src/src/level_instanciation/spawning/objects/npc.rs : NpcSpawner.

Rust f32 values are modelled as exact rationals; the only transcendental
computation in the code, the sigmoid inside Jump.speed_fraction, is modelled
over the reals with Real.exp. Overflow and rounding of f32 are not modelled,
except for the explicit saturation ceiling f32.MAX that Timer.update itself
guards against, which is kept as the exact rational value of f32.MAX.
-/

namespace Foxtrot

/-- Exact rational value of f32.MAX, the saturation ceiling used by Timer. -/
def f32MAX : ℚ := (2 ^ 24 - 1) * 2 ^ 104

/-- Timer from src/src/player.rs lines 37-47: a plain elapsed-time accumulator. -/
structure Timer where
  elapsed_time : ℚ
deriving DecidableEq, Repr

/-- Default for Timer (player.rs lines 41-47): elapsed_time = f32.MAX. -/
def Timer.default : Timer := { elapsed_time := f32MAX }

/-- Timer.start (player.rs lines 56-58): sets elapsed_time to 0. -/
def Timer.start (_t : Timer) : Timer := { elapsed_time := 0 }

/-- Timer.update (player.rs lines 59-65): advance by dt, saturating at f32.MAX. -/
def Timer.update (t : Timer) (dt : ℚ) : Timer :=
  if t.elapsed_time < f32MAX - dt - 0.1 then { elapsed_time := t.elapsed_time + dt }
  else { elapsed_time := f32MAX }

/-- One operation on a Timer, used to talk about sequences of calls. -/
inductive TimerOp where
  | start : TimerOp
  | update (dt : ℚ) : TimerOp
deriving DecidableEq, Repr

/-- Apply one TimerOp to a Timer. -/
def TimerOp.apply : Timer → TimerOp → Timer
  | t, .start => t.start
  | t, .update dt => t.update dt

/-- Run a sequence of Timer operations from an initial Timer state. -/
def runTimer (t : Timer) (ops : List TimerOp) : Timer :=
  ops.foldl TimerOp.apply t

/-- Grounded component (player.rs lines 15-18). -/
structure Grounded where
  time_since_last_grounded : Timer
deriving DecidableEq, Repr

/-- Default for Grounded, via the derived Default on Timer. -/
def Grounded.default : Grounded := { time_since_last_grounded := Timer.default }

/-- Jump component (player.rs lines 20-23). -/
structure Jump where
  time_since_start : Timer
deriving DecidableEq, Repr

/-- Default for Jump, via the derived Default on Timer. -/
def Jump.default : Jump := { time_since_start := Timer.default }

/-- Jump.speed_fraction (player.rs lines 24-35): a shifted and scaled sigmoid of
the elapsed time since jump start, floored to exactly 0 when the raw sigmoid
value is not above 0.001. -/
noncomputable def Jump.speed_fraction (j : Jump) : ℝ :=
  let t : ℝ := (j.time_since_start.elapsed_time : ℝ)
  let suggestion := 1 / (1 + Real.exp (6 * (t - 1 / 2)))
  if suggestion > 0.001 then suggestion else 0

/-- CharacterVelocity payload (player.rs line 13): a 2D vector. -/
structure Vec2 where
  x : ℚ
  y : ℚ
deriving DecidableEq, Repr

/-- Zero vector, the value of Vec2 produced by default(). -/
def Vec2.zero : Vec2 := { x := 0, y := 0 }

/-- update_grounded (player.rs lines 127-139), restricted to one entity: restart
the grounded timer when the controller output reports ground contact, otherwise
advance it by the frame delta. -/
def update_grounded (dt : ℚ) (output_grounded : Bool) (grounded : Grounded) : Grounded :=
  if output_grounded then
    { time_since_last_grounded := grounded.time_since_last_grounded.start }
  else
    { time_since_last_grounded := grounded.time_since_last_grounded.update dt }

/-- apply_gravity (player.rs lines 141-150), restricted to one entity: add the
clamped gravity value, computed from the time since last grounded, to the
vertical velocity component. -/
def apply_gravity (velocity : Vec2) (grounded : Grounded) : Vec2 :=
  let dt := grounded.time_since_last_grounded.elapsed_time
  let g : ℚ := -9.81
  let max_gravity := g * 5
  let min_gravity := g * 1
  let gravity := min (max (g * dt) max_gravity) min_gravity
  { velocity with y := velocity.y + gravity }

/-- Timer-mutation part of handle_jump (player.rs lines 163-169): restart the
jump timer when jump is requested while the grounded timer is below epsilon,
otherwise advance the jump timer by the frame delta. -/
def handle_jump_timer (jump_requested : Bool) (dt : ℚ) (grounded : Grounded)
    (jump : Jump) : Jump :=
  if jump_requested ∧ grounded.time_since_last_grounded.elapsed_time < 0.00001 then
    { time_since_start := jump.time_since_start.start }
  else
    { time_since_start := jump.time_since_start.update dt }

/-- handle_jump (player.rs lines 152-172), restricted to one entity: the timer
mutation above followed by the vertical velocity increment
speed_fraction * y_speed * dt with y_speed = 1100. Returns the new Jump state
and the new vertical velocity. -/
noncomputable def handle_jump (jump_requested : Bool) (dt : ℚ) (grounded : Grounded)
    (jump : Jump) (velocity_y : ℝ) : Jump × ℝ :=
  let y_speed : ℝ := 1100
  let jump := handle_jump_timer jump_requested dt grounded jump
  (jump, velocity_y + jump.speed_fraction * y_speed * dt)

/-- handle_horizontal_movement (player.rs lines 174-184), restricted to one
entity: open-loop accumulation of the horizontal input into velocity.x. -/
def handle_horizontal_movement (dt : ℚ) (input_x : ℚ) (velocity : Vec2) : Vec2 :=
  let x_speed : ℚ := 450
  { velocity with x := velocity.x + input_x * x_speed * dt }

/-- KinematicCharacterControllerOutput fields read by the code: the previous
tick effective translation, desired translation and grounded flag. -/
structure KinematicCharacterControllerOutput where
  effective_translation : Vec2
  desired_translation : Vec2
  grounded : Bool
deriving DecidableEq, Repr

/-- Wall-stick clamp guard inside apply_velocity (player.rs lines 197-216):
when the previous controller output is present, reports near-zero effective
horizontal translation, and the current horizontal velocity is non-trivial,
clamp velocity.x toward zero in the direction the previous desired translation
was pointing. -/
def wall_stick_clamp (velocity : Vec2)
    (output : Option KinematicCharacterControllerOutput) : Vec2 :=
  match output with
  | some output =>
    let epsilon : ℚ := 0.0001
    if |output.effective_translation.x| < epsilon ∧ epsilon < |velocity.x| then
      if output.desired_translation.x < 0 then { velocity with x := max velocity.x 0 }
      else if output.desired_translation.x > 0 then { velocity with x := min velocity.x 0 }
      else velocity
    else velocity
  | none => velocity

/-- apply_velocity (player.rs lines 186-221), restricted to one entity: run the
wall-stick clamp guard, write the resulting velocity into the controller
desired-translation input, and reset the velocity accumulator to zero. Returns
the pair of the new CharacterVelocity value and the controller translation. -/
def apply_velocity (velocity : Vec2)
    (output : Option KinematicCharacterControllerOutput) : Vec2 × Option Vec2 :=
  let velocity :=
    match output with
    | some output =>
      let epsilon : ℚ := 0.0001
      if |output.effective_translation.x| < epsilon ∧ epsilon < |velocity.x| then
        if output.desired_translation.x < 0 then { velocity with x := max velocity.x 0 }
        else if output.desired_translation.x > 0 then { velocity with x := min velocity.x 0 }
        else velocity
      else velocity
    | none => velocity
  (Vec2.zero, some velocity)

/-- Clamp written the way the specification writes it: clamp(x, lo, hi) =
min(max(x, lo), hi). Spec-side definition, compared against apply_gravity. -/
def clampSpec (x lo hi : ℚ) : ℚ := min (max x lo) hi

/-- ParentChangeEvent payload (scene_editor.rs): entity name and new parent name. -/
structure ParentChangeEvent where
  name : String
  new_parent : String
deriving DecidableEq, Repr

/-- SceneEditorState (scene_editor.rs lines 16-23). -/
structure SceneEditorState where
  active : Bool
  save_name : String
  spawn_name : String
  parent_name : String
  parenting_name : String
  parenting_parent_name : String
deriving DecidableEq, Repr

/-- Enabledness of the Set-parent button (scene_editor.rs lines 122-126): both
name fields non-empty and distinct. -/
def set_parent_enabled (s : SceneEditorState) : Bool :=
  !(s.parenting_name.isEmpty || s.parenting_parent_name.isEmpty)
    && s.parenting_name != s.parenting_parent_name

/-- Set-parent region of show_editor (scene_editor.rs lines 122-136). Under the
immediate-mode UI, a button inside a disabled region never reports a click, so
the event branch runs exactly when the region is enabled and the button was
clicked; on emission both name fields are cleared. Returns the emitted event,
if any, and the new editor state. -/
def set_parent_step (s : SceneEditorState) (clicked : Bool) :
    Option ParentChangeEvent × SceneEditorState :=
  if set_parent_enabled s && clicked then
    (some { name := s.parenting_name, new_parent := s.parenting_parent_name },
      { s with parenting_name := "", parenting_parent_name := "" })
  else
    (none, s)

/-- Gltf asset as read by the NPC spawner: its list of scenes. -/
structure Gltf where
  scenes : List String
deriving DecidableEq, Repr

/-- Preloaded character animation handles read by the NPC spawner. -/
structure CharacterAnimationAssets where
  character_idle : String
  character_walking : String
  character_running : String
deriving DecidableEq, Repr

/-- Components attached to spawned entities in npc.rs, kept as tags with the
data the spawner actually writes. -/
inductive Component where
  | pbrBundle (scale : ℚ)
  | name (s : String)
  | kinematicCharacterBundleCapsule (height radius : ℚ)
  | follower
  | characterAnimations (idle walk aerial : String)
  | dialogTarget (dialog_id : String)
  | colliderCylinder (half_height radius : ℚ)
  | sensor
  | activeEvents
  | activeCollisionTypes
  | customCollider
  | sceneBundle (scene : String)
  | model
deriving DecidableEq, Repr

/-- Entity tree produced by a spawner: a component list and child entities. -/
inductive Entity where
  | mk (components : List Component) (children : List Entity)

/-- Components of an entity. -/
def Entity.components : Entity → List Component
  | .mk cs _ => cs

/-- Children of an entity. -/
def Entity.children : Entity → List Entity
  | .mk _ ch => ch

/-- Panic message of the unwrap_or_else in NpcSpawner.spawn (npc.rs line 27). -/
def npcPanicMsg : String := "Failed to load scene for NPC"

/-- Panic message of the out-of-bounds index gltf.scenes[0] (npc.rs line 59). -/
def indexPanicMsg : String := "index out of bounds"

/-- Name of the NPC root entity. -/
def npcRootName : String := "NPC"

/-- Name of the NPC dialog collider child entity. -/
def npcColliderName : String := "NPC Dialog Collider"

/-- Name of the NPC model child entity. -/
def npcModelName : String := "NPC Model"

/-- Dialog id attached to the dialog collider child (npc.rs line 48). -/
def npcDialogId : String := "follower"

/-- HEIGHT constant of npc.rs line 12. -/
def npcHEIGHT : ℚ := 1

/-- RADIUS constant of npc.rs line 13. -/
def npcRADIUS : ℚ := 0.4

/-- SCALE constant of npc.rs line 14. -/
def npcSCALE : ℚ := 0.6

/-- NpcSpawner.spawn (npc.rs lines 18-72). The gltf argument is the result of
the asset lookup spawner.gltf.get(character scene); None makes the code panic.
The code then spawns one root entity with two children; building the model
child indexes gltf.scenes[0], which panics when the scene list is empty.
Panics are modelled as Except.error with the panic message; success returns
the list of root entities created. -/
def NpcSpawner.spawn (gltf : Option Gltf)
    (animations : CharacterAnimationAssets) : Except String (List Entity) :=
  match gltf with
  | none => .error npcPanicMsg
  | some gltf =>
    match gltf.scenes with
    | [] => .error indexPanicMsg
    | scene0 :: _ =>
      .ok [Entity.mk
        [ .pbrBundle npcSCALE,
          .name npcRootName,
          .kinematicCharacterBundleCapsule npcHEIGHT npcRADIUS,
          .follower,
          .characterAnimations animations.character_idle animations.character_walking
            animations.character_running ]
        [ Entity.mk
            [ .dialogTarget npcDialogId,
              .name npcColliderName,
              .colliderCylinder (npcHEIGHT / 2) (npcRADIUS * 5),
              .sensor,
              .activeEvents,
              .activeCollisionTypes,
              .customCollider ] [],
          Entity.mk
            [ .sceneBundle scene0,
              .model,
              .name npcModelName ] [] ]]

/-- Sample editor state with an empty entity-name field. -/
def editorStateEmptyName : SceneEditorState :=
  { active := true, save_name := "demo", spawn_name := "", parent_name := "",
    parenting_name := "", parenting_parent_name := "x" }

/-- Sample editor state with two distinct non-empty name fields. -/
def editorStateAB : SceneEditorState :=
  { active := true, save_name := "demo", spawn_name := "", parent_name := "",
    parenting_name := "a", parenting_parent_name := "b" }

/-- Sample previous-tick controller output: blocked while pushing left. -/
def outputBlockedLeft : KinematicCharacterControllerOutput :=
  { effective_translation := Vec2.zero,
    desired_translation := { x := -1, y := 0 }, grounded := false }

/-- Sample animation asset handles. -/
def animsSample : CharacterAnimationAssets :=
  { character_idle := "idle", character_walking := "walk", character_running := "run" }

/-- Sample gltf with one scene. -/
def gltfSample : Gltf := { scenes := [ "character" ] }

/-- Sample parent-change event matching editorStateAB. -/
def eventAB : ParentChangeEvent := { name := "a", new_parent := "b" }

/-- Sample gltf whose scene list is empty. -/
def gltfEmpty : Gltf := { scenes := [] }

/-! Theorems. -/

/-- Unfolding of the vertical component written by apply_gravity. -/
lemma apply_gravity_y (v : Vec2) (gr : Grounded) :
    (apply_gravity v gr).y
      = v.y + min (max (-9.81 * gr.time_since_last_grounded.elapsed_time) (-9.81 * 5))
          (-9.81 * 1) := rfl

/-- The value apply_gravity adds to the vertical component. -/
lemma apply_gravity_added (v : Vec2) (gr : Grounded) :
    (apply_gravity v gr).y - v.y
      = min (max (-9.81 * gr.time_since_last_grounded.elapsed_time) (-9.81 * 5))
          (-9.81 * 1) := by
  rw [apply_gravity_y]; ring

/-- The clamped gravity value is at most the minimum-magnitude bound. -/
lemma gravity_value_le (t : ℚ) :
    min (max (-9.81 * t) (-9.81 * 5)) (-9.81 * 1) ≤ -9.81 * 1 :=
  min_le_right _ _

/-- The clamped gravity value is at least the maximum-magnitude bound. -/
lemma gravity_value_ge (t : ℚ) :
    -9.81 * 5 ≤ min (max (-9.81 * t) (-9.81 * 5)) (-9.81 * 1) :=
  le_min (le_max_right _ _) (by norm_num)

/-- The clamped gravity value is antitone in the elapsed time. -/
lemma gravity_value_anti {t1 t2 : ℚ} (h : t1 ≤ t2) :
    min (max (-9.81 * t2) (-9.81 * 5)) (-9.81 * 1)
      ≤ min (max (-9.81 * t1) (-9.81 * 5)) (-9.81 * 1) := by
  apply min_le_min _ le_rfl
  apply max_le_max _ le_rfl
  nlinarith

/-- The clamped gravity value is negative. -/
lemma gravity_value_neg (t : ℚ) :
    min (max (-9.81 * t) (-9.81 * 5)) (-9.81 * 1) < 0 :=
  lt_of_le_of_lt (gravity_value_le t) (by norm_num)

/-- C1: for every non-negative time since grounded, the value apply_gravity adds
to the vertical velocity has magnitude within the band from 9.81 to 5 times
9.81, this magnitude is monotone non-decreasing in the elapsed time, and the
added value equals clamp of g times t between g times 5 and g times 1 with
g = -9.81. -/
theorem gravity_band_monotone_clamp (v : Vec2) (gr : Grounded)
    (_ht : 0 ≤ gr.time_since_last_grounded.elapsed_time) :
    (9.81 ≤ |(apply_gravity v gr).y - v.y| ∧ |(apply_gravity v gr).y - v.y| ≤ 5 * 9.81) ∧
    (∀ (v2 : Vec2) (gr2 : Grounded),
      gr.time_since_last_grounded.elapsed_time ≤ gr2.time_since_last_grounded.elapsed_time →
      |(apply_gravity v gr).y - v.y| ≤ |(apply_gravity v2 gr2).y - v2.y|) ∧
    (apply_gravity v gr).y - v.y
      = clampSpec (-9.81 * gr.time_since_last_grounded.elapsed_time) (-9.81 * 5)
          (-9.81 * 1) := by
  refine ⟨⟨?_, ?_⟩, ?_, ?_⟩
  · rw [apply_gravity_added, abs_of_neg (gravity_value_neg _)]
    have := gravity_value_le gr.time_since_last_grounded.elapsed_time
    linarith
  · rw [apply_gravity_added, abs_of_neg (gravity_value_neg _)]
    have := gravity_value_ge gr.time_since_last_grounded.elapsed_time
    linarith
  · intro v2 gr2 hle
    rw [apply_gravity_added, apply_gravity_added, abs_of_neg (gravity_value_neg _),
      abs_of_neg (gravity_value_neg _)]
    have := gravity_value_anti hle
    linarith
  · rw [apply_gravity_added]; rfl

/-- Witness for C1 at elapsed times 3 and 4. -/
theorem gravity_band_monotone_clamp_witness :
    (9.81 ≤ |(apply_gravity Vec2.zero { time_since_last_grounded := { elapsed_time := 3 } }).y
        - Vec2.zero.y|) ∧
    |(apply_gravity Vec2.zero { time_since_last_grounded := { elapsed_time := 3 } }).y
        - Vec2.zero.y|
      ≤ |(apply_gravity Vec2.zero { time_since_last_grounded := { elapsed_time := 4 } }).y
        - Vec2.zero.y| := by
  have h := gravity_band_monotone_clamp Vec2.zero
    { time_since_last_grounded := { elapsed_time := 3 } } (by norm_num)
  exact ⟨h.1.1, h.2.1 Vec2.zero { time_since_last_grounded := { elapsed_time := 4 } }
    (by norm_num)⟩

/-- C7 counterexample: for a grounded entity with zero velocity, the vertical
velocity after the gravity step is -9.81, which is not approximately
base gravity times 0.1 = -0.981; the difference exceeds one half. -/
theorem gravity_grounded_counterexample :
    (apply_gravity { x := 0, y := 0 }
        { time_since_last_grounded := { elapsed_time := 0 } }).y = -9.81 ∧
    ¬ |(apply_gravity { x := 0, y := 0 }
        { time_since_last_grounded := { elapsed_time := 0 } }).y - (-9.81 * 0.1)| < 1 / 2 := by
  constructor
  · norm_num [apply_gravity]
  · intro h
    rw [apply_gravity_y, abs_lt] at h
    norm_num at h

/-- C7 amended: for a grounded entity the gravity step adds exactly the base
gravity -9.81 to the vertical velocity, independently of the frame delta. -/
theorem gravity_grounded_amended (v : Vec2) :
    (apply_gravity v { time_since_last_grounded := { elapsed_time := 0 } }).y
      = v.y + -9.81 := by
  rw [apply_gravity_y]
  norm_num

/-- Timer.update never leaves the saturation ceiling exceeded. -/
lemma Timer.update_le_ceiling (t : Timer) (dt : ℚ) :
    (t.update dt).elapsed_time ≤ f32MAX := by
  rw [Timer.update]
  split
  · next h =>
    show t.elapsed_time + dt ≤ f32MAX
    have h01 : (0 : ℚ) < 0.1 := by norm_num
    linarith
  · exact le_refl _

/-- Running any sequence of Timer operations preserves the ceiling bound. -/
lemma runTimer_le_ceiling (ops : List TimerOp) :
    ∀ t : Timer, t.elapsed_time ≤ f32MAX → (runTimer t ops).elapsed_time ≤ f32MAX := by
  induction ops with
  | nil => intro t ht; exact ht
  | cons op rest ih =>
    intro t ht
    have hstep : (TimerOp.apply t op).elapsed_time ≤ f32MAX := by
      cases op with
      | start =>
        show (0 : ℚ) ≤ f32MAX
        norm_num [f32MAX]
      | update dt => exact Timer.update_le_ceiling t dt
    exact ih _ hstep

/-- C6: along any sequence of Timer operations with non-negative update deltas,
the elapsed time never exceeds the saturation ceiling f32.MAX, an update with
non-negative delta never decreases the elapsed time, and a start call sets the
elapsed time to exactly 0. -/
theorem timer_saturation_invariants :
    (∀ (t : Timer) (ops : List TimerOp), t.elapsed_time ≤ f32MAX →
      (∀ dt : ℚ, TimerOp.update dt ∈ ops → 0 ≤ dt) →
      (runTimer t ops).elapsed_time ≤ f32MAX) ∧
    (∀ (t : Timer) (dt : ℚ), 0 ≤ dt → t.elapsed_time ≤ f32MAX →
      t.elapsed_time ≤ (t.update dt).elapsed_time) ∧
    (∀ t : Timer, (t.start).elapsed_time = 0) := by
  refine ⟨fun t ops ht _ => runTimer_le_ceiling ops t ht, ?_, fun t => rfl⟩
  intro t dt hdt ht
  rw [Timer.update]
  split
  · show t.elapsed_time ≤ t.elapsed_time + dt
    linarith
  · exact ht

/-- Witness for C6 on a concrete operation sequence and a concrete update. -/
theorem timer_saturation_invariants_witness :
    (runTimer { elapsed_time := 0 } [TimerOp.update 1, TimerOp.start]).elapsed_time
      ≤ f32MAX ∧
    ({ elapsed_time := 0 } : Timer).elapsed_time
      ≤ (Timer.update { elapsed_time := 0 } 1).elapsed_time := by
  constructor
  · refine timer_saturation_invariants.1 _ _ (by norm_num [f32MAX]) ?_
    intro dt hdt
    simp only [List.mem_cons, List.not_mem_nil, or_false] at hdt
    rcases hdt with h | h
    · rw [TimerOp.update.injEq] at h
      rw [h]
      norm_num
    · exact absurd h (by simp)
  · exact timer_saturation_invariants.2.1 _ 1 (by norm_num) (by norm_num [f32MAX])

/-- C3: in every jump tick, the jump timer is restarted to exactly 0 when jump
is requested while the grounded timer is below the epsilon 0.00001, and in
every other case the jump timer is exactly the old jump timer advanced by dt,
so a jump never restarts while airborne. -/
theorem jump_restart_iff_grounded (req : Bool) (dt : ℚ) (gr : Grounded) (j : Jump) :
    (req = true ∧ gr.time_since_last_grounded.elapsed_time < 0.00001 →
      (handle_jump_timer req dt gr j).time_since_start.elapsed_time = 0) ∧
    (¬(req = true ∧ gr.time_since_last_grounded.elapsed_time < 0.00001) →
      (handle_jump_timer req dt gr j).time_since_start = j.time_since_start.update dt) := by
  constructor
  · intro h
    rw [handle_jump_timer, if_pos h]
    rfl
  · intro h
    rw [handle_jump_timer, if_neg h]

/-- Witness for C3: a grounded restart and an airborne advance. -/
theorem jump_restart_iff_grounded_witness :
    (handle_jump_timer true 0.25 { time_since_last_grounded := { elapsed_time := 0 } }
        { time_since_start := { elapsed_time := 7 } }).time_since_start.elapsed_time = 0 ∧
    (handle_jump_timer true 0.25 { time_since_last_grounded := { elapsed_time := 3 } }
        { time_since_start := { elapsed_time := 7 } }).time_since_start
      = Timer.update { elapsed_time := 7 } 0.25 := by
  constructor
  · exact (jump_restart_iff_grounded true 0.25
      { time_since_last_grounded := { elapsed_time := 0 } }
      { time_since_start := { elapsed_time := 7 } }).1 ⟨rfl, by norm_num⟩
  · refine (jump_restart_iff_grounded true 0.25
      { time_since_last_grounded := { elapsed_time := 3 } }
      { time_since_start := { elapsed_time := 7 } }).2 ?_
    intro h
    have h2 := h.2
    norm_num at h2

/-- C4: apply_velocity always resets the velocity accumulator to the zero
vector and writes the clamped pre-reset velocity into the controller
desired-translation input. -/
theorem apply_velocity_resets_and_commits (v : Vec2)
    (o : Option KinematicCharacterControllerOutput) :
    apply_velocity v o = (Vec2.zero, some (wall_stick_clamp v o)) := by
  cases o with
  | none => rfl
  | some out => rfl

/-- C5: for any present previous-tick output, the wall-stick guard inside
apply_velocity never changes the vertical component; when the previous
effective horizontal translation is below epsilon 0.0001 in magnitude and the
current horizontal velocity is above epsilon in magnitude, a negative previous
desired horizontal translation clamps velocity.x to max with 0 and a positive
one clamps it to min with 0; when that condition fails, or no output is
present, the velocity is unchanged. -/
theorem wall_stick_clamp_spec (v : Vec2) (o : KinematicCharacterControllerOutput) :
    ((apply_velocity v (some o)).2 = some (wall_stick_clamp v (some o))) ∧
    (wall_stick_clamp v (some o)).y = v.y ∧
    (|o.effective_translation.x| < 0.0001 → 0.0001 < |v.x| →
      o.desired_translation.x < 0 → (wall_stick_clamp v (some o)).x = max v.x 0) ∧
    (|o.effective_translation.x| < 0.0001 → 0.0001 < |v.x| →
      0 < o.desired_translation.x → (wall_stick_clamp v (some o)).x = min v.x 0) ∧
    (¬(|o.effective_translation.x| < 0.0001 ∧ 0.0001 < |v.x|) →
      wall_stick_clamp v (some o) = v) ∧
    (∀ u : Vec2, wall_stick_clamp u none = u) := by
  refine ⟨rfl, ?_, ?_, ?_, ?_, fun u => rfl⟩
  · simp only [wall_stick_clamp]
    split_ifs <;> rfl
  · intro h1 h2 h3
    simp only [wall_stick_clamp]
    rw [if_pos ⟨h1, h2⟩, if_pos h3]
  · intro h1 h2 h3
    simp only [wall_stick_clamp]
    rw [if_pos ⟨h1, h2⟩, if_neg (by linarith), if_pos h3]
  · intro h
    simp only [wall_stick_clamp]
    rw [if_neg h]

/-- Witness for C5: blocked while pushing left with positive velocity. -/
theorem wall_stick_clamp_spec_witness :
    (wall_stick_clamp { x := 3, y := 7 } (some outputBlockedLeft)).y = 7 ∧
    (wall_stick_clamp { x := 3, y := 7 } (some outputBlockedLeft)).x = max 3 0 := by
  have h := wall_stick_clamp_spec { x := 3, y := 7 } outputBlockedLeft
  refine ⟨h.2.1, ?_⟩
  exact h.2.2.1 (by norm_num [outputBlockedLeft, Vec2.zero]) (by norm_num)
    (by norm_num [outputBlockedLeft])

/-- When the raw sigmoid value is above the cutoff, speed_fraction returns it. -/
lemma speed_fraction_eq_of_gt (j : Jump)
    (h : (0.001 : ℝ)
      < 1 / (1 + Real.exp (6 * ((j.time_since_start.elapsed_time : ℝ) - 1 / 2)))) :
    j.speed_fraction
      = 1 / (1 + Real.exp (6 * ((j.time_since_start.elapsed_time : ℝ) - 1 / 2))) := by
  simp only [Jump.speed_fraction]
  rw [if_pos h]

/-- When the raw sigmoid value is not above the cutoff, speed_fraction is 0. -/
lemma speed_fraction_eq_zero_of_le (j : Jump)
    (h : 1 / (1 + Real.exp (6 * ((j.time_since_start.elapsed_time : ℝ) - 1 / 2)))
      ≤ (0.001 : ℝ)) :
    j.speed_fraction = 0 := by
  simp only [Jump.speed_fraction]
  rw [if_neg (not_lt.mpr h)]

/-- The speed fraction is never negative. -/
lemma speed_fraction_nonneg (j : Jump) : 0 ≤ j.speed_fraction := by
  simp only [Jump.speed_fraction]
  split
  · positivity
  · exact le_refl 0

/-- The raw sigmoid is antitone in its argument. -/
lemma sigmoid_anti {a b : ℝ} (h : a ≤ b) :
    1 / (1 + Real.exp b) ≤ 1 / (1 + Real.exp a) := by
  have ha : (0 : ℝ) < 1 + Real.exp a := by positivity
  apply one_div_le_one_div_of_le ha
  have := Real.exp_le_exp.mpr h
  linarith

/-- Numeric upper bound on exp 3. -/
lemma exp_three_lt : Real.exp 3 < 24 := by
  have h1 : Real.exp 3 = Real.exp 1 ^ 3 := by
    rw [← Real.exp_nat_mul]
    norm_num
  have h2 : Real.exp 1 ^ 3 < 2.7182818286 ^ 3 := by
    apply pow_lt_pow_left₀ Real.exp_one_lt_d9 (Real.exp_pos 1).le
    norm_num
  have h3 : (2.7182818286 : ℝ) ^ 3 < 24 := by norm_num
  linarith

/-- Numeric lower bound on exp of -3. -/
lemma exp_neg_three_gt : (1 : ℝ) / 24 < Real.exp (-3) := by
  rw [Real.exp_neg, inv_eq_one_div]
  exact one_div_lt_one_div_of_lt (Real.exp_pos 3) exp_three_lt

/-- C2 counterexample: at jump-timer elapsed time 0 the speed fraction lies
strictly between one half and 24/25, hence it is not approximately 1 within
floating tolerance. -/
theorem speed_fraction_at_zero_counterexample :
    1 / 2 < Jump.speed_fraction { time_since_start := { elapsed_time := 0 } } ∧
    Jump.speed_fraction { time_since_start := { elapsed_time := 0 } } < 24 / 25 := by
  have harg : 6 * ((((0 : ℚ) : ℝ)) - 1 / 2) = (-3 : ℝ) := by norm_num
  have hlt1 : Real.exp (-3) < 1 := Real.exp_lt_one_iff.mpr (by norm_num)
  have hpos : (0 : ℝ) < 1 + Real.exp (-3) := by positivity
  have hlow : (1 : ℝ) / 2 < 1 / (1 + Real.exp (-3)) := by
    have := one_div_lt_one_div_of_lt hpos (by linarith : 1 + Real.exp (-3) < 2)
    linarith
  have heq : Jump.speed_fraction { time_since_start := { elapsed_time := 0 } }
      = 1 / (1 + Real.exp (-3)) := by
    have h := speed_fraction_eq_of_gt
      { time_since_start := { elapsed_time := 0 } }
      (by rw [harg]; linarith)
    rw [h, harg]
  refine ⟨by rw [heq]; exact hlow, ?_⟩
  rw [heq]
  have h2524 : (25 : ℝ) / 24 < 1 + Real.exp (-3) := by
    have := exp_neg_three_gt
    linarith
  have := one_div_lt_one_div_of_lt (by norm_num : (0 : ℝ) < 25 / 24) h2524
  calc 1 / (1 + Real.exp (-3)) < 1 / (25 / 24) := this
    _ = 24 / 25 := by norm_num

/-- C2 amended: the speed fraction at elapsed time 0 equals 1/(1 + exp(-3)),
about 0.9526 and below 24/25, so it is not within floating tolerance of 1; the
speed fraction is non-increasing in the elapsed time; and it equals exactly 0
whenever the raw sigmoid value is below 0.001. -/
theorem speed_fraction_amended :
    (Jump.speed_fraction { time_since_start := { elapsed_time := 0 } }
        = 1 / (1 + Real.exp (-3))) ∧
    (∀ t1 t2 : ℚ, t1 ≤ t2 →
      Jump.speed_fraction { time_since_start := { elapsed_time := t2 } }
        ≤ Jump.speed_fraction { time_since_start := { elapsed_time := t1 } }) ∧
    (∀ t : ℚ, 1 / (1 + Real.exp (6 * ((t : ℝ) - 1 / 2))) < (0.001 : ℝ) →
      Jump.speed_fraction { time_since_start := { elapsed_time := t } } = 0) := by
  refine ⟨?_, ?_, ?_⟩
  · have harg : 6 * ((((0 : ℚ) : ℝ)) - 1 / 2) = (-3 : ℝ) := by norm_num
    have hlt1 : Real.exp (-3) < 1 := Real.exp_lt_one_iff.mpr (by norm_num)
    have hpos : (0 : ℝ) < 1 + Real.exp (-3) := by positivity
    have h := speed_fraction_eq_of_gt
      { time_since_start := { elapsed_time := 0 } }
      (by
        rw [harg]
        have := one_div_lt_one_div_of_lt hpos (by linarith : 1 + Real.exp (-3) < 2)
        linarith)
    rw [h, harg]
  · intro t1 t2 h
    have hcast : ((t1 : ℝ)) ≤ ((t2 : ℝ)) := by exact_mod_cast h
    have hargle : 6 * (((t1 : ℚ) : ℝ) - 1 / 2) ≤ 6 * (((t2 : ℚ) : ℝ) - 1 / 2) := by
      linarith
    have hs := sigmoid_anti hargle
    by_cases h2 : (0.001 : ℝ) < 1 / (1 + Real.exp (6 * (((t2 : ℚ) : ℝ) - 1 / 2)))
    · have h1 : (0.001 : ℝ) < 1 / (1 + Real.exp (6 * (((t1 : ℚ) : ℝ) - 1 / 2))) :=
        lt_of_lt_of_le h2 hs
      rw [speed_fraction_eq_of_gt { time_since_start := { elapsed_time := t2 } } h2,
        speed_fraction_eq_of_gt { time_since_start := { elapsed_time := t1 } } h1]
      exact hs
    · rw [speed_fraction_eq_zero_of_le
        { time_since_start := { elapsed_time := t2 } } (not_lt.mp h2)]
      exact speed_fraction_nonneg _
  · intro t h
    exact speed_fraction_eq_zero_of_le
      { time_since_start := { elapsed_time := t } } (le_of_lt h)

/-- Witness for C2 amended: monotonicity between 0 and 1, and exact zero at
elapsed time 1000. -/
theorem speed_fraction_amended_witness :
    Jump.speed_fraction { time_since_start := { elapsed_time := 1 } }
      ≤ Jump.speed_fraction { time_since_start := { elapsed_time := 0 } } ∧
    Jump.speed_fraction { time_since_start := { elapsed_time := 1000 } } = 0 := by
  constructor
  · exact speed_fraction_amended.2.1 0 1 (by norm_num)
  · apply speed_fraction_amended.2.2 1000
    have harg : 6 * ((((1000 : ℚ)) : ℝ) - 1 / 2) = (5997 : ℝ) := by norm_num
    rw [harg]
    have hexp : (5998 : ℝ) ≤ Real.exp 5997 := by
      have := Real.add_one_le_exp (5997 : ℝ)
      linarith
    have : 1 / (1 + Real.exp 5997) ≤ 1 / (5999 : ℝ) :=
      one_div_le_one_div_of_le (by norm_num) (by linarith)
    have hfin : (1 : ℝ) / 5999 < 0.001 := by norm_num
    linarith

/-- C10: a default-constructed Timer has elapsed time f32.MAX; consequently a
default Jump yields speed fraction exactly 0, and a default Grounded makes the
gravity step add the maximum-magnitude value, 5 times base gravity. -/
theorem default_timer_consequences :
    Timer.default.elapsed_time = f32MAX ∧
    Jump.speed_fraction Jump.default = 0 ∧
    ∀ v : Vec2, (apply_gravity v Grounded.default).y = v.y + -9.81 * 5 := by
  refine ⟨rfl, ?_, ?_⟩
  · apply speed_fraction_eq_zero_of_le
    have heq : ((Jump.default.time_since_start.elapsed_time : ℚ) : ℝ)
        = ((f32MAX : ℚ) : ℝ) := rfl
    rw [heq]
    have hM : (1000 : ℝ) ≤ ((f32MAX : ℚ) : ℝ) := by
      rw [f32MAX]
      push_cast
      norm_num
    have hexp := Real.add_one_le_exp (6 * (((f32MAX : ℚ) : ℝ) - 1 / 2))
    have hbig : (1000 : ℝ) ≤ 1 + Real.exp (6 * (((f32MAX : ℚ) : ℝ) - 1 / 2)) := by
      linarith
    have hdiv := one_div_le_one_div_of_le (by norm_num : (0 : ℝ) < 1000) hbig
    calc 1 / (1 + Real.exp (6 * (((f32MAX : ℚ) : ℝ) - 1 / 2)))
        ≤ 1 / 1000 := hdiv
      _ ≤ 0.001 := by norm_num
  · intro v
    rw [apply_gravity_y]
    have hM : (-9.81 : ℚ) * Grounded.default.time_since_last_grounded.elapsed_time
        ≤ -9.81 * 5 := by
      show (-9.81 : ℚ) * f32MAX ≤ -9.81 * 5
      rw [f32MAX]
      norm_num
    rw [max_eq_right hM, min_eq_left (by norm_num : (-9.81 : ℚ) * 5 ≤ -9.81 * 1)]

/-- C8 counterexample: with a present gltf whose scene list is empty, the NPC
spawner still aborts, so a panic does not happen only when the asset lookup
fails. -/
theorem npc_spawn_counterexample :
    NpcSpawner.spawn (some gltfEmpty) animsSample = .error indexPanicMsg ∧
    (some gltfEmpty : Option Gltf) ≠ none := by
  exact ⟨rfl, by simp⟩

/-- C8 amended: the NPC spawner aborts fatally exactly when the preloaded
character scene asset lookup fails or the loaded gltf has an empty scene list;
when a gltf with at least one scene is present, exactly one root entity is
created, and it bears exactly two children, a dialog-trigger collider child
followed by a visual-model child. -/
theorem npc_spawn_amended (a : CharacterAnimationAssets) :
    (∃ e, NpcSpawner.spawn none a = .error e) ∧
    (∀ g : Gltf, g.scenes = [] → ∃ e, NpcSpawner.spawn (some g) a = .error e) ∧
    (∀ g : Gltf, g.scenes ≠ [] →
      ∃ root : Entity, NpcSpawner.spawn (some g) a = .ok [root] ∧
        root.children.length = 2 ∧
        ∃ c1 c2 : Entity, root.children = [c1, c2] ∧
          Component.dialogTarget npcDialogId ∈ c1.components ∧
          Component.colliderCylinder (npcHEIGHT / 2) (npcRADIUS * 5) ∈ c1.components ∧
          Component.model ∈ c2.components ∧
          Component.name npcModelName ∈ c2.components) := by
  refine ⟨⟨npcPanicMsg, rfl⟩, ?_, ?_⟩
  · intro g hg
    obtain ⟨scs⟩ := g
    simp only at hg
    subst hg
    exact ⟨indexPanicMsg, rfl⟩
  · intro g hg
    obtain ⟨scs⟩ := g
    cases scs with
    | nil => exact absurd rfl hg
    | cons s rest =>
      refine ⟨_, rfl, rfl, _, _, rfl, ?_, ?_, ?_, ?_⟩
      · simp [Entity.components]
      · simp [Entity.components]
      · simp [Entity.components]
      · simp [Entity.components]

/-- Witness for C8 amended on a concrete one-scene gltf. -/
theorem npc_spawn_amended_witness :
    ∃ root : Entity, NpcSpawner.spawn (some gltfSample) animsSample = .ok [root] ∧
      root.children.length = 2 ∧
      ∃ c1 c2 : Entity, root.children = [c1, c2] ∧
        Component.dialogTarget npcDialogId ∈ c1.components ∧
        Component.colliderCylinder (npcHEIGHT / 2) (npcRADIUS * 5) ∈ c1.components ∧
        Component.model ∈ c2.components ∧
        Component.name npcModelName ∈ c2.components := by
  exact (npc_spawn_amended animsSample).2.2 gltfSample (by simp [gltfSample])

/-- Boolean emptiness check on strings, as a proposition on the false side. -/
lemma isEmpty_eq_false_iff (s : String) : (s.isEmpty = false) ↔ ¬ (s = "") := by
  rw [Bool.eq_false_iff]
  exact not_congr (String.isEmpty_iff s)

/-- Enabledness of the Set-parent button, unfolded to propositions. -/
lemma set_parent_enabled_iff (s : SceneEditorState) :
    set_parent_enabled s = true ↔
      s.parenting_name ≠ "" ∧ s.parenting_parent_name ≠ "" ∧
        s.parenting_name ≠ s.parenting_parent_name := by
  simp only [set_parent_enabled, Bool.and_eq_true, Bool.not_eq_true', Bool.or_eq_false_iff,
    bne_iff_ne, ne_eq, and_assoc, isEmpty_eq_false_iff]

/-- C9: a ParentChangeEvent can be emitted only when the entered entity name
and parent name are both non-empty and distinct; when either field is empty or
they are equal, the Set-parent action is disabled and no event is emitted; an
emitted event carries exactly the two entered names. -/
theorem set_parent_guard (s : SceneEditorState) (clicked : Bool) :
    ((set_parent_step s clicked).1.isSome = true →
      s.parenting_name ≠ "" ∧ s.parenting_parent_name ≠ "" ∧
        s.parenting_name ≠ s.parenting_parent_name) ∧
    (s.parenting_name = "" ∨ s.parenting_parent_name = "" ∨
        s.parenting_name = s.parenting_parent_name →
      set_parent_enabled s = false ∧ (set_parent_step s clicked).1 = none) ∧
    (∀ e : ParentChangeEvent, (set_parent_step s clicked).1 = some e →
      e.name = s.parenting_name ∧ e.new_parent = s.parenting_parent_name) := by
  refine ⟨?_, ?_, ?_⟩
  · intro h
    by_cases hb : (set_parent_enabled s && clicked) = true
    · exact (set_parent_enabled_iff s).mp ((Bool.and_eq_true _ _).mp hb).1
    · rw [set_parent_step, if_neg hb] at h
      simp at h
  · intro hdisj
    have hen : set_parent_enabled s = false := by
      rw [Bool.eq_false_iff]
      intro htrue
      obtain ⟨h1, h2, h3⟩ := (set_parent_enabled_iff s).mp htrue
      rcases hdisj with h | h | h
      · exact h1 h
      · exact h2 h
      · exact h3 h
    refine ⟨hen, ?_⟩
    rw [set_parent_step, if_neg (by simp [hen])]
  · intro e he
    by_cases hb : (set_parent_enabled s && clicked) = true
    · rw [set_parent_step, if_pos hb] at he
      simp only [Option.some.injEq] at he
      rw [← he]
      exact ⟨rfl, rfl⟩
    · rw [set_parent_step, if_neg hb] at he
      simp at he

/-- Witness for C9: a rejected empty-name state and an accepted emission. -/
theorem set_parent_guard_witness :
    (set_parent_enabled editorStateEmptyName = false ∧
      (set_parent_step editorStateEmptyName true).1 = none) ∧
    (eventAB.name = editorStateAB.parenting_name ∧
      eventAB.new_parent = editorStateAB.parenting_parent_name) := by
  constructor
  · exact (set_parent_guard editorStateEmptyName true).2.1 (Or.inl rfl)
  · exact (set_parent_guard editorStateAB true).2.2 eventAB rfl

end Foxtrot
